import Mathlib

/-!
Verification of the `lensm` tool (src/main.go) against its natural-language
specification.  The Go code is shallowly embedded: pure control flow becomes
Lean functions; the side effects of `main` (calls to `Parse`, `ParseExe`,
printing usage, launching the UI) are recorded in an explicit event trace;
external library behaviour (regexp compilation, file reads, font parsing,
the results of `Parse`/`ParseExe`) is passed in as explicit oracles, so that
the embedded functions remain executable.
-/

namespace Lensm

/-! ## Core data model (spec §3) -/

/-- A match produced by the Matcher for one accepted symbol.  Only the fields
the UI layer in src/main.go reads are embedded (the `Name` field is read by
`layoutMatches` and `openInNew`). -/
structure Match where
  Name : String
  deriving DecidableEq, Repr

/-- The root object returned by the Matcher: an ordered sequence of Match. -/
structure Output where
  Matches : List Match
  deriving DecidableEq, Repr

/-- A symbol of the executable: name plus address range (spec §3). -/
structure Symbol where
  name : String
  addr : Nat
  size : Nat
  deriving DecidableEq, Repr

/-- The parsed executable: the ordered collection of symbols (spec §3).
`UI.SetExe` reads the `Syms` field. -/
structure Executable where
  Syms : List Symbol
  deriving DecidableEq, Repr

/-- The options record `main` builds and passes to `Parse`
(src/main.go lines 49–54).  The compiled regular expression `Filter` is
represented by the pattern string it was compiled from. -/
structure Options where
  exe : String
  filterPattern : String
  context : Int
  maxSymbols : Int
  deriving DecidableEq, Repr

/-! ## Matcher (spec-modelled) -/

/-- Modelled from the spec: step 1–2 of `BuildOutput` (§4.5) — the function
`Parse` invoked by `main` is not part of src/main.go.  Symbols are scanned in
symbol-table order; a symbol whose name the pattern accepts is taken in
encounter order; the scan halts as soon as `maxMatches` symbols have been
accepted (short-circuit, not post-filter truncation); `maxMatches ≤ 0` yields
no accepted symbols. -/
def acceptSymbols (accepts : String → Bool) (remaining : Int) :
    List Symbol → List Symbol
  | [] => []
  | s :: rest =>
    if remaining ≤ 0 then []
    else if accepts s.name then
      s :: acceptSymbols accepts (remaining - 1) rest
    else
      acceptSymbols accepts remaining rest

/-- Modelled from the spec: `BuildOutput(executable, pattern, context,
maxMatches) -> Output` (§4.5) — the implementation behind `Parse` is not in
src/main.go.  The per-symbol disassembly/correlation (steps 3–5) is the
parameter `mkMatch`, since the claims settled here only concern which symbols
are accepted; acceptance and the cap are modelled in full by
`acceptSymbols`. -/
def buildOutput (exe : Executable) (accepts : String → Bool)
    (mkMatch : Symbol → Match) (maxMatches : Int) : Output :=
  ⟨(acceptSymbols accepts maxMatches exe.Syms).map mkMatch⟩

/-! ## The `main` function (src/main.go lines 28–81) -/

/-- The flag set registered by `main` (src/main.go lines 29–33), with the
default value each flag carries when it is omitted from the command line. -/
structure Flags where
  textSize : Int := 12
  filter : String := ""
  context : Int := 3
  font : String := ""
  maxMatches : Int := 10
  deriving DecidableEq, Repr

/-- `flag.Parse` resolves each flag to its supplied value, or to its
registered default when the flag is omitted (`none`). -/
def parseFlags (textArg : Option Int) (filterArg : Option String)
    (ctxArg : Option Int) (fontArg : Option String)
    (maxArg : Option Int) : Flags :=
  { textSize := textArg.getD 12
    filter := filterArg.getD ""
    context := ctxArg.getD 3
    font := fontArg.getD ""
    maxMatches := maxArg.getD 10 }

/-- Observable events of a run of `main`, in program order. -/
inductive MainEvent where
  | usagePrinted
  | parseCalled (opts : Options)
  | parseExeCalled (path : String)
  | uiStarted
  deriving DecidableEq, Repr

/-- How a run of `main` ends (before the Gio event loop takes over). -/
inductive MainResult where
  | exited (code : Nat)
  | panicked
  | running (out : Output) (exe : Executable)
  deriving DecidableEq, Repr

/-- The `Options` record `main` builds and passes to `Parse`
(src/main.go lines 49–54). -/
def mainOptions (exename : String) (flags : Flags) : Options :=
  { exe := exename
    filterPattern := flags.filter
    context := flags.context
    maxSymbols := flags.maxMatches }

/-- Shallow embedding of `main` (src/main.go lines 28–81).  The outcomes of
the external calls are oracles: `regexCompiles p` is whether
`regexp.Compile p` succeeds, `parseRes` is the result of `Parse`, and
`parseExeRes` the result of `ParseExe`.  The returned trace records, in
order, the side effects `main` performed. -/
def runMain (exename : String) (flags : Flags)
    (regexCompiles : String → Bool)
    (parseRes : Options → Except Unit Output)
    (parseExeRes : String → Except Unit Executable) :
    MainResult × List MainEvent :=
  if exename = "" ∨ flags.filter = "" then
    (.exited 1, [.usagePrinted])
  else if regexCompiles flags.filter = false then
    (.panicked, [])
  else
    let opts : Options := mainOptions exename flags
    match parseRes opts with
    | .error _ => (.panicked, [.parseCalled opts])
    | .ok out =>
      match parseExeRes exename with
      | .error _ => (.panicked, [.parseCalled opts, .parseExeCalled exename])
      | .ok exe =>
        (.running out exe,
          [.parseCalled opts, .parseExeCalled exename, .uiStarted])

/-- Whether a trace contains a call of `Parse` or of `ParseExe`. -/
def callsParsing (tr : List MainEvent) : Bool :=
  tr.any fun e =>
    match e with
    | .parseCalled _ => true
    | .parseExeCalled _ => true
    | _ => false

/-! ## UI state (src/main.go lines 124–139, 280–301)

The `UI` struct fields the settled claims touch: `Output`, the select-list
cursor `Matches.Selected`, the selected-match pointer `Selected`, and the two
scroll offsets `MatchUI.asm.scroll` / `MatchUI.src.scroll`.  In the Go code
`Selected` is a pointer `*Match`; it is only ever assigned `nil` or
`&ui.Output.Matches[target]` (both inside `selectIndex`), and `Output` is
never reassigned, so pointer equality with `&ui.Output.Matches[target]`
coincides with index equality — `Selected` is embedded as the optional index
of the selected match. -/
structure UIState where
  output : Output
  matchesSelected : Int
  selected : Option Nat
  asmScroll : Int
  srcScroll : Int
  deriving DecidableEq, Repr

/-- `UI.resetScroll` (src/main.go lines 298–301): sets both pane scroll
offsets to 100000. -/
def resetScroll (ui : UIState) : UIState :=
  { ui with asmScroll := 100000, srcScroll := 100000 }

/-- `UI.selectIndex` (src/main.go lines 280–296). -/
def selectIndex (ui : UIState) (target : Int) : UIState :=
  if target < 0 ∨ (ui.output.Matches.length : Int) ≤ target then
    resetScroll { ui with selected := none, matchesSelected := -1 }
  else
    let ui1 := { ui with matchesSelected := target }
    if ui1.selected = some target.toNat then ui1
    else resetScroll { ui1 with selected := some target.toNat }

/-- Observable events of the UI operations. -/
inductive UIEvent where
  /-- A window was opened for the match of the given name
  (`ui.Windows.Open(ui.Selected.Name, ...)`). -/
  | openedWindow (name : String)
  /-- A call of the Matcher (`Parse`).  No UI operation emits it; it is in
  the vocabulary so that "never re-runs the Matcher" is expressible. -/
  | parseCalled
  deriving DecidableEq, Repr

/-- `UI.openInNew` (src/main.go lines 254–269): reads `ui.Selected.Name` and
opens a new window rendering the selected match with a copy of the current
`MatchUI` state.  `none` is the nil-pointer dereference that Go would panic
with when `ui.Selected` is `nil` (or the index is out of range, which cannot
happen for states produced by `selectIndex`). -/
def openInNew (ui : UIState) : Option (UIState × List UIEvent) :=
  ((ui.selected.bind fun i => ui.output.Matches.get? i).map
    fun m => (ui, [.openedWindow m.Name]))

/-- Modelled from the spec: the presentation layer mutates the assembly
pane scroll offset in response to user action ("independent scroll offsets
for the two panes", §2; "mutated only by the presentation layer in response
to user action", §5) — the scroll-handling code (`MatchUIStyle.Layout`) is
not part of src/main.go.  `v` is the new offset. -/
def setAsmScroll (ui : UIState) (v : Int) : UIState :=
  { ui with asmScroll := v }

/-- Modelled from the spec: the presentation layer mutates the source pane
scroll offset in response to user action, independently of the assembly
pane (§2, §5) — the scroll-handling code is not part of src/main.go. -/
def setSrcScroll (ui : UIState) (v : Int) : UIState :=
  { ui with srcScroll := v }

/-- The UI operations whose effect on `Output` is under scrutiny. -/
inductive UIOp where
  | select (target : Int)
  | openNew
  deriving DecidableEq, Repr

/-- Run a sequence of UI operations, accumulating the emitted events.
`none` models the Go process dying from the nil-pointer panic in
`openInNew`; no further operations run. -/
def runOps (ui : UIState) : List UIOp → Option (UIState × List UIEvent)
  | [] => some (ui, [])
  | .select t :: rest => runOps (selectIndex ui t) rest
  | .openNew :: rest =>
    (openInNew ui).bind fun p =>
      (runOps p.1 rest).map fun q => (q.1, p.2 ++ q.2)

/-- The UI state `main` hands to the Gio event loop: `NewUI` leaves
`Selected` nil and the zero-valued `MatchUI` scroll offsets, and `main` sets
`ui.Output = out` (src/main.go lines 64–72, 141–148). -/
def initialUI (out : Output) : UIState :=
  { output := out, matchesSelected := 0, selected := none
    asmScroll := 0, srcScroll := 0 }

/-- The UI states reachable from startup by the selection operation of
src/main.go together with the spec-modelled per-pane scroll mutations. -/
inductive Reachable (out : Output) : UIState → Prop
  | init : Reachable out (initialUI out)
  | select (ui : UIState) (t : Int) (h : Reachable out ui) :
      Reachable out (selectIndex ui t)
  | scrollAsm (ui : UIState) (v : Int) (h : Reachable out ui) :
      Reachable out (setAsmScroll ui v)
  | scrollSrc (ui : UIState) (v : Int) (h : Reachable out ui) :
      Reachable out (setSrcScroll ui v)

/-! ## fontCollection (src/main.go lines 102–118) -/

/-- A loaded font face paired with the font descriptor
(`text.FontFace`); the parsed face is abstract. -/
structure FontFace where
  variant : String
  face : Nat
  deriving DecidableEq, Repr

/-- Result of `fontCollection`: either a collection, or a Go `panic`
carrying the formatted message. -/
inductive FontResult where
  | ok (collection : List FontFace)
  | panicked (msg : String)
  deriving DecidableEq, Repr

/-- `fontCollection` (src/main.go lines 102–118).  External behaviour as
oracles: `gofontCollection` is `gofont.Collection()`, `readFile` is
`ioutil.ReadFile` (file contents as a byte list), `otParse` is
`opentype.Parse`.  Both failure paths panic with a "failed to parse font"
message. -/
def fontCollection (path : String)
    (gofontCollection : List FontFace)
    (readFile : String → Except String (List Nat))
    (otParse : List Nat → Except String Nat) : FontResult :=
  let collection := gofontCollection
  if path = "" then .ok collection
  else
    match readFile path with
    | .error e => .panicked ("failed to parse font: " ++ e)
    | .ok b =>
      match otParse b with
      | .error e => .panicked ("failed to parse font: " ++ e)
      | .ok face =>
        .ok (collection ++ [{ variant := "Mono", face := face }])

/-! ## The first Rigid child of UI.Layout (src/main.go lines 185–192)

The body is embedded statement by statement and run by a small interpreter
in which the Go `return` stops execution, so that unreachability of the
statements after the first `return` is a theorem about the interpreter, not
an artefact of dropping them during translation. -/

/-- Layout dimensions (`layout.Dimensions`); `layout.Dimensions{}` is the
zero value. -/
structure Dimensions where
  x : Int := 0
  y : Int := 0
  deriving DecidableEq, Repr

/-- The statements of the body of the first Rigid child. -/
inductive LayoutStmt where
  /-- `return layout.Dimensions{}` (line 186). -/
  | retEmptyDims
  /-- `gtx.Constraints = layout.Exact(...)` (lines 187–190). -/
  | setConstraintsExact
  /-- `return ui.Symbols.Layout(ui.Theme, gtx)` (line 191). -/
  | retSymbolsLayout
  deriving DecidableEq, Repr

/-- The body of the first Rigid child of `UI.Layout`, in source order
(src/main.go lines 185–192). -/
def firstRigidBody : List LayoutStmt :=
  [.retEmptyDims, .setConstraintsExact, .retSymbolsLayout]

/-- Execute a statement list: the result is the returned dimensions (if a
`return` was reached) and whether `ui.Symbols.Layout` was invoked.
`symbolsResult` is the dimensions `Symbols.Layout` would return. -/
def execStmts (symbolsResult : Dimensions) :
    List LayoutStmt → Option Dimensions × Bool
  | [] => (none, false)
  | .retEmptyDims :: _ => (some {}, false)
  | .setConstraintsExact :: rest => execStmts symbolsResult rest
  | .retSymbolsLayout :: _ => (some symbolsResult, true)

/-- A one-match Output used as a concrete scenario. -/
def demoOutput : Output := ⟨[⟨"main.foo"⟩]⟩

/-! ## Helper lemmas -/

/-- The number of symbols `acceptSymbols` accepts is the cap (clamped to 0)
against the number of symbols the pattern accepts. -/
theorem acceptSymbols_length (accepts : String → Bool) (m : Int)
    (l : List Symbol) :
    (acceptSymbols accepts m l).length =
      min m.toNat ((l.filter fun s => accepts s.name).length) := by
  induction l generalizing m with
  | nil => simp [acceptSymbols]
  | cons s rest ih =>
    by_cases hm : m ≤ 0
    · simp only [acceptSymbols, if_pos hm, List.length_nil]
      omega
    · by_cases ha : accepts s.name
      · simp [acceptSymbols, hm, ha, List.filter_cons, ih]
        omega
      · simp [acceptSymbols, hm, ha, List.filter_cons, ih]

/-- `selectIndex` never changes the `Output` field. -/
theorem selectIndex_output (ui : UIState) (t : Int) :
    (selectIndex ui t).output = ui.output := by
  simp only [selectIndex, resetScroll]
  split_ifs <;> rfl

/-- `openInNew`, when it does not panic, returns the state unchanged and
emits exactly one window-opened event. -/
theorem openInNew_frame (ui : UIState) (p : UIState × List UIEvent)
    (h : openInNew ui = some p) :
    p.1 = ui ∧ ∃ n, p.2 = [UIEvent.openedWindow n] := by
  unfold openInNew at h
  obtain ⟨m, hm, hinj⟩ := Option.map_eq_some'.mp h
  exact ⟨(congrArg Prod.fst hinj).symm, m.Name,
    (congrArg Prod.snd hinj).symm⟩

/-- Reaching `Parse` (non-empty arguments, compiling pattern), the trace of
`main` contains the `Parse` call carrying `mainOptions`. -/
theorem parseCalled_mem (exename : String) (flags : Flags)
    (regexCompiles : String → Bool)
    (parseRes : Options → Except Unit Output)
    (parseExeRes : String → Except Unit Executable)
    (h1 : ¬(exename = "" ∨ flags.filter = ""))
    (h2 : regexCompiles flags.filter = true) :
    MainEvent.parseCalled (mainOptions exename flags) ∈
      (runMain exename flags regexCompiles parseRes parseExeRes).2 := by
  simp only [runMain]
  rw [if_neg h1, if_neg (by simp [h2])]
  cases hp : parseRes (mainOptions exename flags) with
  | error e => simp
  | ok out =>
    cases hpe : parseExeRes exename with
    | error e => simp
    | ok exe => simp

/-! ## Claims -/

/-- C1: the number of Matches in the Output produced by the Matcher equals
`min(m, number of symbols whose name matches the pattern)` when `m > 0`, and
`0` when `m ≤ 0` (`m` is the `MaxSymbols` cap `main` passes). -/
theorem buildOutput_match_count (exe : Executable) (accepts : String → Bool)
    (mkMatch : Symbol → Match) (m : Int) :
    (buildOutput exe accepts mkMatch m).Matches.length =
      if 0 < m then
        min m.toNat ((exe.Syms.filter fun s => accepts s.name).length)
      else 0 := by
  simp only [buildOutput, List.length_map, acceptSymbols_length]
  split <;> omega

/-- C2: with the executable path absent or the filter pattern empty, `main`
terminates via `os.Exit(1)` — a non-zero exit status — and its trace shows
neither a `Parse` nor a `ParseExe` call. -/
theorem usage_error_exits_before_parsing (exename : String) (flags : Flags)
    (regexCompiles : String → Bool) (parseRes : Options → Except Unit Output)
    (parseExeRes : String → Except Unit Executable)
    (h : exename = "" ∨ flags.filter = "") :
    (runMain exename flags regexCompiles parseRes parseExeRes).1 =
        .exited 1 ∧
    callsParsing
        (runMain exename flags regexCompiles parseRes parseExeRes).2 =
      false := by
  simp [runMain, h, callsParsing]

/-- Witness for C2 at a concrete input: no executable path. -/
theorem usage_error_exits_before_parsing_w :
    (runMain "" { filter := "main" } (fun _ => true) (fun _ => .error ())
        (fun _ => .error ())).1 = .exited 1 ∧
    callsParsing (runMain "" { filter := "main" } (fun _ => true)
        (fun _ => .error ()) (fun _ => .error ())).2 = false :=
  usage_error_exits_before_parsing "" { filter := "main" } (fun _ => true)
    (fun _ => .error ()) (fun _ => .error ()) (Or.inl rfl)

/-- C3: every sequence of `selectIndex` / `openInNew` calls leaves the
`Output` record unchanged and never invokes the Matcher (`Parse`). -/
theorem select_open_pure (ui : UIState) (ops : List UIOp) (ui2 : UIState)
    (tr : List UIEvent) (h : runOps ui ops = some (ui2, tr)) :
    ui2.output = ui.output ∧ UIEvent.parseCalled ∉ tr := by
  induction ops generalizing ui tr with
  | nil =>
    simp only [runOps, Option.some.injEq, Prod.mk.injEq] at h
    obtain ⟨h1, h2⟩ := h
    subst h1; subst h2
    exact ⟨rfl, by simp⟩
  | cons op rest ih =>
    cases op with
    | select t =>
      have hrec := ih (selectIndex ui t) tr h
      exact ⟨hrec.1.trans (selectIndex_output ui t), hrec.2⟩
    | openNew =>
      simp only [runOps] at h
      cases hop : openInNew ui with
      | none => rw [hop] at h; exact absurd h (by simp)
      | some p =>
        rw [hop, Option.some_bind] at h
        obtain ⟨q, hrun, hfq⟩ := Option.map_eq_some'.mp h
        obtain ⟨hpu, n, hpn⟩ := openInNew_frame ui p hop
        have h1 : q.1 = ui2 := congrArg Prod.fst hfq
        have h2 : p.2 ++ q.2 = tr := congrArg Prod.snd hfq
        have hrec := ih p.1 q.2 (by rw [hrun, ← h1])
        rw [← h1] at hrec
        constructor
        · rw [← h1, hrec.1, hpu]
        · rw [← h2, hpn]
          intro hmem
          rcases List.mem_append.mp hmem with hc | hc
          · exact UIEvent.noConfusion (List.mem_singleton.mp hc)
          · exact hrec.2 hc

/-- Witness for C3 at a concrete input: select match 0 of a one-match
Output, then open it in a new window. -/
theorem select_open_pure_w :
    (UIState.mk ⟨[⟨"main.foo"⟩]⟩ 0 (some 0) 100000 100000).output =
        (initialUI ⟨[⟨"main.foo"⟩]⟩).output ∧
    UIEvent.parseCalled ∉ [UIEvent.openedWindow "main.foo"] :=
  select_open_pure (initialUI ⟨[⟨"main.foo"⟩]⟩) [.select 0, .openNew]
    (UIState.mk ⟨[⟨"main.foo"⟩]⟩ 0 (some 0) 100000 100000)
    [UIEvent.openedWindow "main.foo"] (by decide)

/-- C4 counterexample: a reachable UI state (select match 0, then scroll the
assembly pane) in which the two pane scroll offsets differ — they are not
one shared value. -/
theorem scroll_offsets_can_diverge :
    Reachable demoOutput
        (setAsmScroll (selectIndex (initialUI demoOutput) 0) 5) ∧
    (setAsmScroll (selectIndex (initialUI demoOutput) 0) 5).asmScroll ≠
      (setAsmScroll (selectIndex (initialUI demoOutput) 0) 5).srcScroll :=
  ⟨.scrollAsm _ 5 (.select _ 0 .init), by decide⟩

/-- C4 amended: the two pane scroll offsets are two independent values; they
are jointly reset to the single shared constant 100000 whenever
`resetScroll` runs (i.e. on every selection change), but afterwards each
pane scrolls independently. -/
theorem reset_scroll_shared (ui : UIState) :
    (resetScroll ui).asmScroll = 100000 ∧
    (resetScroll ui).srcScroll = 100000 :=
  ⟨rfl, rfl⟩

/-- C5: a filter pattern that does not compile is fatal — `main` panics with
no `Parse` or `ParseExe` call in its trace. -/
theorem invalid_filter_halts_before_parsing (exename : String)
    (flags : Flags) (regexCompiles : String → Bool)
    (parseRes : Options → Except Unit Output)
    (parseExeRes : String → Except Unit Executable)
    (h1 : ¬(exename = "" ∨ flags.filter = ""))
    (h2 : regexCompiles flags.filter = false) :
    runMain exename flags regexCompiles parseRes parseExeRes =
      (.panicked, []) := by
  simp [runMain, h1, h2]

/-- Witness for C5 at a concrete input: an unbalanced-parenthesis pattern
that the regexp compiler rejects. -/
theorem invalid_filter_halts_before_parsing_w :
    runMain "a.out" { filter := "(" } (fun _ => false)
        (fun _ => .error ()) (fun _ => .error ()) = (.panicked, []) :=
  invalid_filter_halts_before_parsing "a.out" { filter := "(" }
    (fun _ => false) (fun _ => .error ()) (fun _ => .error ())
    (by simp) rfl

/-- C6: a `FormatError` is fatal for the whole run — when `Parse` fails, or
`Parse` succeeds and `ParseExe` fails, `main` panics: the result is never
`running`, so no Output reaches a UI, and the trace stops at the failing
call. -/
theorem format_error_is_fatal (exename : String) (flags : Flags)
    (regexCompiles : String → Bool)
    (parseRes : Options → Except Unit Output)
    (parseExeRes : String → Except Unit Executable)
    (h1 : ¬(exename = "" ∨ flags.filter = ""))
    (h2 : regexCompiles flags.filter = true) :
    (parseRes (mainOptions exename flags) = .error () →
      runMain exename flags regexCompiles parseRes parseExeRes =
        (.panicked, [.parseCalled (mainOptions exename flags)])) ∧
    (∀ out, parseRes (mainOptions exename flags) = .ok out →
      parseExeRes exename = .error () →
      runMain exename flags regexCompiles parseRes parseExeRes =
        (.panicked, [.parseCalled (mainOptions exename flags),
          .parseExeCalled exename])) := by
  constructor
  · intro hp
    simp only [runMain]
    rw [if_neg h1, if_neg (by simp [h2]), hp]
  · intro out hp hpe
    simp only [runMain]
    rw [if_neg h1, if_neg (by simp [h2]), hp, hpe]

/-- Witness for C6 at a concrete input: `Parse` fails. -/
theorem format_error_is_fatal_w :
    runMain "a.out" { filter := "main" } (fun _ => true)
        (fun _ => .error ()) (fun _ => .error ()) =
      (.panicked, [.parseCalled (mainOptions "a.out" { filter := "main" })]) :=
  (format_error_is_fatal "a.out" { filter := "main" } (fun _ => true)
    (fun _ => .error ()) (fun _ => .error ()) (by simp) rfl).1 rfl

/-- C7: with the `-context` and `-max-matches` flags omitted the parsed flag
set carries the defaults 3 and 10, and `main` passes exactly these values to
`Parse` as `Options.Context` and `Options.MaxSymbols`. -/
theorem defaults_passed_to_matcher (exename filterArg : String)
    (regexCompiles : String → Bool)
    (parseRes : Options → Except Unit Output)
    (parseExeRes : String → Except Unit Executable)
    (hexe : exename ≠ "") (hf : filterArg ≠ "")
    (hre : regexCompiles filterArg = true) :
    (parseFlags none (some filterArg) none none none).context = 3 ∧
    (parseFlags none (some filterArg) none none none).maxMatches = 10 ∧
    MainEvent.parseCalled
        { exe := exename, filterPattern := filterArg
          context := 3, maxSymbols := 10 } ∈
      (runMain exename (parseFlags none (some filterArg) none none none)
          regexCompiles parseRes parseExeRes).2 := by
  refine ⟨rfl, rfl, ?_⟩
  have hmem := parseCalled_mem exename
    (parseFlags none (some filterArg) none none none)
    regexCompiles parseRes parseExeRes
    (by simp [parseFlags, hexe, hf]) (by simpa [parseFlags] using hre)
  simpa [mainOptions, parseFlags] using hmem

/-- Witness for C7 at a concrete input. -/
theorem defaults_passed_to_matcher_w :
    (parseFlags none (some "main") none none none).context = 3 ∧
    (parseFlags none (some "main") none none none).maxMatches = 10 ∧
    MainEvent.parseCalled
        { exe := "a.out", filterPattern := "main"
          context := 3, maxSymbols := 10 } ∈
      (runMain "a.out" (parseFlags none (some "main") none none none)
          (fun _ => true) (fun _ => .error ()) (fun _ => .error ())).2 :=
  defaults_passed_to_matcher "a.out" "main" (fun _ => true)
    (fun _ => .error ()) (fun _ => .error ())
    (by simp) (by simp) rfl

/-- C8: `selectIndex` is total.  Out of range (negative or ≥ the match
count): `Selected` becomes nil, `Matches.Selected` becomes −1, both scroll
offsets reset.  In range and already selected: only `Matches.Selected` is
written, everything else (scroll offsets included) is unchanged.  In range
and newly selected: `Selected` and `Matches.Selected` are set and both
scroll offsets reset; `Output` is untouched in every case. -/
theorem selectIndex_cases (ui : UIState) (t : Int) :
    (t < 0 ∨ (ui.output.Matches.length : Int) ≤ t →
      selectIndex ui t =
        { ui with selected := none, matchesSelected := -1
                  asmScroll := 100000, srcScroll := 100000 }) ∧
    (0 ≤ t → t < (ui.output.Matches.length : Int) →
      ui.selected = some t.toNat →
      selectIndex ui t = { ui with matchesSelected := t }) ∧
    (0 ≤ t → t < (ui.output.Matches.length : Int) →
      ui.selected ≠ some t.toNat →
      selectIndex ui t =
        { ui with selected := some t.toNat, matchesSelected := t
                  asmScroll := 100000, srcScroll := 100000 }) := by
  refine ⟨fun h => ?_, fun h1 h2 hsel => ?_, fun h1 h2 hsel => ?_⟩
  · simp only [selectIndex]
    rw [if_pos h]
    rfl
  · simp only [selectIndex]
    rw [if_neg (by omega),
      if_pos (show ({ ui with matchesSelected := t } : UIState).selected =
        some t.toNat from hsel)]
  · simp only [selectIndex]
    rw [if_neg (by omega),
      if_neg (show ¬({ ui with matchesSelected := t } : UIState).selected =
        some t.toNat from hsel)]
    rfl

/-- Witness for C8 at a concrete input: target −1 is out of range. -/
theorem selectIndex_cases_w :
    selectIndex (initialUI demoOutput) (-1) =
      { initialUI demoOutput with
          selected := none, matchesSelected := -1
          asmScroll := 100000, srcScroll := 100000 } :=
  (selectIndex_cases (initialUI demoOutput) (-1)).1 (Or.inl (by decide))

/-- C9: with an empty font path `fontCollection` returns the default gofont
collection unchanged; with a non-empty path, a failing file read or a
failing OpenType parse each abort the program via panic. -/
theorem fontCollection_cases (path : String)
    (gofontCollection : List FontFace)
    (readFile : String → Except String (List Nat))
    (otParse : List Nat → Except String Nat) :
    (path = "" →
      fontCollection path gofontCollection readFile otParse =
        .ok gofontCollection) ∧
    (path ≠ "" → ∀ e, readFile path = .error e →
      fontCollection path gofontCollection readFile otParse =
        .panicked ("failed to parse font: " ++ e)) ∧
    (path ≠ "" → ∀ b e, readFile path = .ok b → otParse b = .error e →
      fontCollection path gofontCollection readFile otParse =
        .panicked ("failed to parse font: " ++ e)) := by
  refine ⟨fun h => ?_, fun h e he => ?_, fun h b e hb he => ?_⟩
  · rw [fontCollection, if_pos h]
  · rw [fontCollection, if_neg h, he]
  · rw [fontCollection, if_neg h, hb]
    simp [he]

/-- Witness for C9 at a concrete input: a missing font file panics. -/
theorem fontCollection_cases_w :
    fontCollection "mono.ttf" [] (fun _ => .error "no such file")
        (fun _ => .error "not otf") =
      .panicked ("failed to parse font: " ++ "no such file") :=
  (fontCollection_cases "mono.ttf" [] (fun _ => .error "no such file")
    (fun _ => .error "not otf")).2.1 (by simp) "no such file" rfl

/-- C10: executing the body of the first Rigid child of `UI.Layout` always
returns the zero `layout.Dimensions` from its first statement, and
`ui.Symbols.Layout` is never invoked — the statements after the first
`return` are unreachable, whatever `Symbols.Layout` would have returned. -/
theorem first_rigid_returns_empty (symbolsResult : Dimensions) :
    execStmts symbolsResult firstRigidBody = (some {}, false) :=
  rfl

end Lensm
